import Mathlib

/-!
Verification of the drone motion / trail / replay core of the `cesium-map`
repository (files `movePoint.ts`, `movePath.ts`, `replayPath.ts`,
`setPath.ts`, `setPoint.ts`).

The embedding models JavaScript numbers as exact rationals extended with a
`NaN` element (IEEE rounding is idealised away; no operation in the modelled
code can overflow the idealisation in a way the claims depend on).  Cesium
collaborator objects (`JulianDate`, `SampledPositionProperty`,
`Cartesian3`, the clock, the tick-event listener list and the entity
registry) are embedded as explicit data, with time measured in seconds.
-/

namespace CesiumMap

/-- Fuel-driven Newton iteration for the integer square root: refine the
guess while it still decreases. -/
def natSqrtIter : ℕ → ℕ → ℕ → ℕ
  | 0, _, g => g
  | f + 1, n, g =>
    let next := (g + n / g) / 2
    if next < g then natSqrtIter f n next else g

/-- Floor integer square root (Newton's method, the standard algorithm behind
machine `sqrt`); exact on perfect squares. -/
def natSqrt (n : ℕ) : ℕ := if n ≤ 1 then n else natSqrtIter n n (n / 2)

/-- An exact fraction (numerator, positive denominator).  All fractions the
modelled code constructs go through `Q.norm`, so structural equality
coincides with value equality on every value the model produces. -/
structure Q where
  num : ℤ
  den : ℕ
deriving DecidableEq, Repr

/-- Normalise a fraction: positive denominator, coprime representation. -/
def Q.norm (n : ℤ) (d : ℕ) : Q :=
  if d = 0 then ⟨0, 1⟩
  else
    let g := n.natAbs.gcd d
    ⟨n / g, d / g⟩

instance (n : ℕ) : OfNat Q n := ⟨⟨n, 1⟩⟩

/-- Exact addition of fractions. -/
def Q.add (a b : Q) : Q := Q.norm (a.num * b.den + b.num * a.den) (a.den * b.den)

/-- Exact subtraction of fractions. -/
def Q.sub (a b : Q) : Q := Q.norm (a.num * b.den - b.num * a.den) (a.den * b.den)

/-- Exact multiplication of fractions. -/
def Q.mul (a b : Q) : Q := Q.norm (a.num * b.num) (a.den * b.den)

/-- Exact division of fractions (`a / 0` yields `0`; the modelled code never
divides by zero — the `|| default` guards replace a zero speed by the
default before any division, and curve sample times are pairwise distinct). -/
def Q.div (a b : Q) : Q := Q.norm (a.num * b.den * b.num.sign) (a.den * b.num.natAbs)

/-- Negation. -/
def Q.neg (a : Q) : Q := ⟨-a.num, a.den⟩

instance : Neg Q := ⟨Q.neg⟩

/-- Strict order by cross-multiplication. -/
def Q.blt (a b : Q) : Bool := decide (a.num * b.den < b.num * a.den)

/-- Non-strict order by cross-multiplication. -/
def Q.ble (a b : Q) : Bool := decide (a.num * b.den ≤ b.num * a.den)

/-- Exact square root of a fraction, via `natSqrt` on numerator and
denominator; exact whenever both are perfect squares (negative input yields
0, matching `Int.toNat`). -/
def Q.sqrtQ (q : Q) : Q := Q.norm (natSqrt q.num.toNat) (natSqrt q.den)

/-- A JavaScript number: either NaN or an exact fraction (IEEE rounding and
overflow are idealised away; `Infinity` is not modelled — the modelled code
never divides by zero, see `Q.div`). -/
inductive JSNum where
  | nan : JSNum
  | num : Q → JSNum
deriving DecidableEq, Repr

namespace JSNum

/-- IEEE addition, NaN-propagating. -/
def add : JSNum → JSNum → JSNum
  | num a, num b => num (a.add b)
  | _, _ => nan

/-- IEEE subtraction, NaN-propagating. -/
def sub : JSNum → JSNum → JSNum
  | num a, num b => num (a.sub b)
  | _, _ => nan

/-- IEEE multiplication, NaN-propagating. -/
def mul : JSNum → JSNum → JSNum
  | num a, num b => num (a.mul b)
  | _, _ => nan

/-- IEEE division, NaN-propagating. -/
def div : JSNum → JSNum → JSNum
  | num a, num b => num (a.div b)
  | _, _ => nan

/-- IEEE `<`: any comparison involving NaN is false. -/
def ltb : JSNum → JSNum → Bool
  | num a, num b => a.blt b
  | _, _ => false

/-- IEEE `>`: any comparison involving NaN is false. -/
def gtb : JSNum → JSNum → Bool
  | num a, num b => b.blt a
  | _, _ => false

/-- IEEE `<=`: any comparison involving NaN is false. -/
def leb : JSNum → JSNum → Bool
  | num a, num b => a.ble b
  | _, _ => false

/-- IEEE `>=` (used for `JulianDate.compare(a, b) >= 0`): any comparison
involving NaN is false. -/
def geb : JSNum → JSNum → Bool
  | num a, num b => b.ble a
  | _, _ => false

/-- JavaScript `isNaN`. -/
def isNaN : JSNum → Bool
  | nan => true
  | num _ => false

/-- JavaScript `x || d` for a possibly-missing numeric option: `undefined`,
`NaN` and `0` are falsy and select the default. -/
def orDefault : Option JSNum → Q → JSNum
  | none, d => num d
  | some nan, d => num d
  | some (num q), d => if q.num = 0 then num d else num q

end JSNum

/-- A `Cesium.Cartesian3` (components are JavaScript numbers). -/
structure Cart3 where
  x : JSNum
  y : JSNum
  z : JSNum
deriving DecidableEq, Repr

/-- `Cesium.Cartesian3.fromDegrees`.  The real function is the WGS84
geographic→ECEF conversion, which is transcendental; the spec (§6) treats the
conversion as an external collaborator ("conversion between geographic
(longitude, latitude, height) and the scene's internal coordinate frame").
We model it as an injective linear chart — `scale` metres per degree on each
horizontal axis, height mapped directly — which preserves every feature the
claims exercise: determinism (equal inputs give equal outputs) and NaN
propagation into the produced components. -/
def fromDegrees (lng lat height : JSNum) : Cart3 :=
  ⟨lng.mul (JSNum.num 100000), lat.mul (JSNum.num 100000), height⟩

/-- `Cesium.Cartesian3.distance`: the Euclidean distance between two points.
The square root is `Q.sqrtQ` (exact on every perfect-square argument; all
concrete witnesses below use perfect-square squared distances, and every
branch condition of the modelled code compares a distance to a constant, so
on witness inputs the model agrees exactly with the source); NaN anywhere
makes the result NaN. -/
def cartDistance (a b : Cart3) : JSNum :=
  match a, b with
  | ⟨.num ax, .num ay, .num az⟩, ⟨.num bx, .num by', .num bz⟩ =>
      .num (Q.sqrtQ ((((ax.sub bx).mul (ax.sub bx)).add
        ((ay.sub by').mul (ay.sub by'))).add
        ((az.sub bz).mul (az.sub bz))))
  | _, _ => .nan

/-- `Cesium.JulianDate.addSeconds` (times are modelled as epoch seconds). -/
def addSeconds (t s : JSNum) : JSNum := t.add s

/-- Linear interpolation between two positions, parameter `r` ∈ [0,1]. -/
def lerp (p q : Cart3) (r : JSNum) : Cart3 :=
  ⟨p.x.add (r.mul (q.x.sub p.x)),
   p.y.add (r.mul (q.y.sub p.y)),
   p.z.add (r.mul (q.z.sub p.z))⟩

/-- A `Cesium.SampledPositionProperty`: its time-ordered samples.
(The interpolation options that `replayPath.ts` sets — Hermite, degree 2 —
only affect interior values, which no claim below depends on; boundary and
sample-hit behaviour are interpolation-independent.) -/
structure SampledPositionProperty where
  samples : List (JSNum × Cart3)
deriving DecidableEq, Repr

namespace SampledPositionProperty

/-- Insert a sample keeping times ascending; a sample at an already-present
time overwrites it (Cesium binary-searches and replaces).  A NaN time
compares false with everything and ends up appended at the tail. -/
def insertSample (t : JSNum) (p : Cart3) :
    List (JSNum × Cart3) → List (JSNum × Cart3)
  | [] => [(t, p)]
  | (t', p') :: rest =>
    if t.ltb t' then (t, p) :: (t', p') :: rest
    else if t = t' then (t, p) :: rest
    else (t', p') :: insertSample t p rest

/-- `SampledPositionProperty.addSample`. -/
def addSample (sp : SampledPositionProperty) (t : JSNum) (p : Cart3) :
    SampledPositionProperty :=
  ⟨insertSample t p sp.samples⟩

/-- Evaluation tail: `t` is known to lie strictly after the sample `(t1,p1)`;
walk the remaining samples. -/
def getValueFrom (t : JSNum) : JSNum → Cart3 → List (JSNum × Cart3) → Cart3
  | _, p1, [] => p1
  | t1, p1, (t2, p2) :: rest =>
    if t.leb t2 then lerp p1 p2 ((t.sub t1).div (t2.sub t1))
    else getValueFrom t t2 p2 rest

/-- Modelled from the spec: `SampledPositionProperty.getValue` — the Waypoint
Interpolator's `evaluate` — is implemented by the external Cesium library and
its source is not under `src/`.  Per spec §4.2: with no sample there is no
position; a query at or before the first sample, or at or after the last
sample, clamps to that boundary sample; with a single sample the result
degenerates to it; interior queries interpolate between the two bracketing
samples (modelled linearly; see `SampledPositionProperty`). -/
def getValue (sp : SampledPositionProperty) (t : JSNum) : Option Cart3 :=
  match sp.samples with
  | [] => none
  | (t0, p0) :: rest => some (if t.leb t0 then p0 else getValueFrom t t0 p0 rest)

end SampledPositionProperty

/-- A tick listener subscribed to `map.clock.onTick`.  Listener bodies are
closures in the source; what the claims exercise is their identity
(subscription and removal by reference), which we model by tagging each
registration with the owning drone/session and a fresh numeric id. -/
inductive Listener where
  | trailUpdate (pointId : String) (flightId : ℕ)
  | flightEnd (pointId : String) (flightId : ℕ)
  | replayTick (sessionId : ℕ)
deriving DecidableEq, Repr

/-- `Cesium.ClockRange`. -/
inductive ClockRange where
  | UNBOUNDED
  | CLAMPED
  | LOOP_STOP
deriving DecidableEq, Repr

/-- The shared scene clock (`map.clock`). -/
structure Clock where
  currentTime : JSNum
  startTime : JSNum
  stopTime : JSNum
  multiplier : JSNum
  clockRange : ClockRange
  shouldAnimate : Bool
deriving DecidableEq, Repr

/-- What `entity.position` currently holds: nothing, a raw constant
`Cartesian3` (as assigned by `stopReplay`), or an alias of the graphic's own
`positionProperty` (the only `SampledPositionProperty` the source ever
assigns to `entity.position` is the same object it stores in
`modelEntity.positionProperty`, so the alias is represented by a tag). -/
inductive EntityPos where
  | noPos
  | const (p : Cart3)
  | sampled
deriving DecidableEq, Repr

/-- Model of `Cesium.Transforms.headingPitchRollQuaternion`: the quaternion is
abstracted as its determining arguments (position, heading, pitch; roll is
the constant 0). -/
structure HeadingPitch where
  position : Cart3
  heading : JSNum
  pitch : JSNum
deriving DecidableEq, Repr

/-- A registry entry (`mapStore.graphicMap` value): for drones the ad-hoc
`modelEntity` bag built by `setDronePointByGlb`; `position`/`orientation` are
the raw fields written by `movePoint`. -/
structure Graphic where
  hasEntity : Bool
  entityPos : EntityPos
  positionProperty : Option SampledPositionProperty
  currentPosition : Option Cart3
  isFlying : Bool
  flightEndListener : Option ℕ
  position : Option Cart3
  orientation : Option HeadingPitch
deriving DecidableEq, Repr

/-- `entity.position.getValue(t)` for the modelled `entity.position`. -/
def evalEntityPos (g : Graphic) (t : JSNum) : Option Cart3 :=
  match g.entityPos with
  | .noPos => none
  | .const p => some p
  | .sampled => g.positionProperty.bind (fun sp => sp.getValue t)

/-- A trail point (`{ position, timestamp }`). -/
structure TrailPoint where
  position : Cart3
  timestamp : JSNum
deriving DecidableEq, Repr

/-- A trail record (`trailData` of `setPath.ts`): the polyline entity is
represented by the flag `hasEntity` (its geometry is recomputed lazily from
`positions` by a `CallbackProperty`, so it carries no state of its own). -/
structure TrailData where
  hasEntity : Bool
  positions : List TrailPoint
  lastUpdateTime : JSNum
  isVisible : Bool
deriving DecidableEq, Repr

/-- Modelled from the spec: the `mapStore` (a Pinia store) is not under
`src/`; per spec §6 it is a plain registry ("create/lookup/remove an
addressable object by id").  Association-list lookup by key. -/
def lookupKey {α : Type} (k : String) : List (String × α) → Option α
  | [] => none
  | (k', v) :: rest => if k' = k then some v else lookupKey k rest

/-- Modelled from the spec: registry write — replace the entry at the key or
append a fresh one (see `lookupKey`). -/
def setKey {α : Type} (k : String) (v : α) : List (String × α) → List (String × α)
  | [] => [(k, v)]
  | (k', v') :: rest => if k' = k then (k, v) :: rest else (k', v') :: setKey k v rest

/-- Modelled from the spec: registry delete (see `lookupKey`).  A JavaScript
`Map` holds at most one entry per key, so deletion removes every entry at the
key. -/
def eraseKey {α : Type} (k : String) : List (String × α) → List (String × α)
  | [] => []
  | (k', v') :: rest => if k' = k then eraseKey k rest else (k', v') :: eraseKey k rest

/-- The scene-wide mutable state: the `mapStore` registries, the retention
window (`mapStore.getTrailTime()`, seconds or the `-1` sentinel), the shared
clock and its tick-listener list.  `mapPresent` models `mapStore.getMap()`
being non-null; `nextId` supplies fresh identities for listener closures. -/
structure MapState where
  mapPresent : Bool
  graphicMap : List (String × Graphic)
  droneTrails : List (String × TrailData)
  trailTime : Q
  clock : Clock
  tickListeners : List Listener
  nextId : ℕ
deriving DecidableEq, Repr

/-- `setDroneTrail` (`setPath.ts`): create the trail record for a drone if
absent (one initial point at the clock's current time), otherwise return the
existing record unchanged. -/
def setDroneTrail (droneId : String) (startPosition : Cart3) (s : MapState) :
    MapState × Option TrailData :=
  if !s.mapPresent then (s, none)
  else
    let trailId := droneId ++ "_trail"
    match lookupKey trailId s.droneTrails with
    | some td => (s, some td)
    | none =>
      let td : TrailData :=
        { hasEntity := true
          positions := [⟨startPosition, s.clock.currentTime⟩]
          lastUpdateTime := s.clock.currentTime
          isVisible := true }
      ({ s with droneTrails := setKey trailId td s.droneTrails }, some td)

/-- `clearDroneTrail` (`setPath.ts`): remove the trail's polyline entity and
delete the record from the store; a no-op when the trail does not exist. -/
def clearDroneTrail (droneId : String) (s : MapState) : MapState :=
  let trailId := droneId ++ "_trail"
  match lookupKey trailId s.droneTrails with
  | none => s
  | some _ => { s with droneTrails := eraseKey trailId s.droneTrails }

/-- Options of `setDronePointByGlb` (`setPoint.ts`). -/
structure GlbPointOptions where
  id : String
  lng : JSNum
  lat : JSNum
  height : Option JSNum
  heading : Option JSNum
deriving DecidableEq, Repr

/-- `setDronePointByGlb` (`setPoint.ts`): if a graphic with the id exists,
return it unchanged ("already exists"); otherwise create the drone model
entity at the given coordinates, give it a one-sample position curve anchored
at the clock's current time, create its trail, and register it. -/
def setDronePointByGlb (o : GlbPointOptions) (s : MapState) :
    MapState × Option Graphic :=
  if !s.mapPresent then (s, none)
  else
    match lookupKey o.id s.graphicMap with
    | some g => (s, some g)
    | none =>
      let targetHeight := JSNum.orDefault o.height 0
      let cur := fromDegrees o.lng o.lat targetHeight
      let pp := SampledPositionProperty.addSample ⟨[]⟩ s.clock.currentTime cur
      let g : Graphic :=
        { hasEntity := true
          entityPos := .sampled
          positionProperty := some pp
          currentPosition := some cur
          isFlying := false
          flightEndListener := none
          position := none
          orientation := none }
      let s1 := (setDroneTrail o.id cur s).1
      ({ s1 with graphicMap := setKey o.id g s1.graphicMap }, some g)

/-- Options of `movePoint` (`movePoint.ts`). -/
structure MovePointOptions where
  pointId : String
  lng : JSNum
  lat : JSNum
  height : Option JSNum
  heading : Option JSNum
  pitch : Option JSNum
deriving DecidableEq, Repr

/-- `movePoint` (`movePoint.ts`): reposition an existing (non-flying) point.
Validates the produced Cartesian coordinates and rejects the command (return
`false`, no mutation) when any component is NaN; note `options.height || 0`
coerces a NaN height to 0 before the check, and a NaN heading/pitch is
coerced to 0.  (The source logs `point.constructor.name` before its own
missing-point guard, which would throw on a missing id; the guard's intended
no-op behaviour is modelled.) -/
def movePoint (o : MovePointOptions) (s : MapState) : MapState × Bool :=
  match lookupKey o.pointId s.graphicMap with
  | none => (s, false)
  | some point =>
    let height := JSNum.orDefault o.height 0
    let position := fromDegrees o.lng o.lat height
    if position.x.isNaN || position.y.isNaN || position.z.isNaN then (s, false)
    else
      let point' := { point with
        position := some position
        orientation := some ⟨position, JSNum.orDefault o.heading 0, JSNum.orDefault o.pitch 0⟩ }
      ({ s with graphicMap := setKey o.pointId point' s.graphicMap }, true)

/-- `moveDroneTrail` (`movePath.ts`): record a trail point.  Creates the
trail if missing; appends to a non-empty trail only when the new position is
more than `MIN_DISTANCE = 1` metre from the last recorded point, and after an
append prunes points whose timestamp is older than
`currentTime - getTrailTime()` unless the retention window is the `-1`
sentinel. -/
def moveDroneTrail (droneId : String) (newPosition : Cart3) (s : MapState) :
    MapState × Option TrailData :=
  if !s.mapPresent then (s, none)
  else
    let trailId := droneId ++ "_trail"
    match lookupKey trailId s.droneTrails with
    | none => setDroneTrail droneId newPosition s
    | some trailData =>
      let currentTime := s.clock.currentTime
      match trailData.positions.getLast? with
      | some lastPoint =>
        if (cartDistance lastPoint.position newPosition).gtb (JSNum.num 1) then
          let positions1 := trailData.positions ++ [⟨newPosition, currentTime⟩]
          let trimmed :=
            if s.trailTime ≠ -1 then
              let cutoffTime := addSeconds currentTime (JSNum.num (-s.trailTime))
              positions1.filter (fun p => p.timestamp.geb cutoffTime)
            else positions1
          let td' := { trailData with positions := trimmed, lastUpdateTime := currentTime }
          ({ s with droneTrails := setKey trailId td' s.droneTrails }, some td')
        else (s, some trailData)
      | none =>
        let td' := { trailData with
          positions := [⟨newPosition, currentTime⟩], lastUpdateTime := currentTime }
        ({ s with droneTrails := setKey trailId td' s.droneTrails }, some td')

/-- Options of `moveDronePoint` (`movePoint.ts`). -/
structure MoveDroneOptions where
  pointId : String
  lng : JSNum
  lat : JSNum
  height : Option JSNum
  speed : Option JSNum
deriving DecidableEq, Repr

/-- Observable outcome of a `moveDronePoint` call (the source communicates
the computed flight duration through its log line). -/
inductive MoveOutcome where
  | noMap
  | created
  | snapped
  | flying (duration : JSNum)
deriving DecidableEq, Repr

/-- `moveDronePoint` (`movePoint.ts`): issue a point-to-point flight command.
Creates the entity when missing; otherwise resolves the entity's real-time
position (curve at the clock's current time, with fallbacks), records it in
the trail, removes the stored flight-end listener and resets the flight
state, then either snaps (distance < 0.1 m) or installs a fresh two-sample
curve of duration `distance / speed` together with a trail-update and a
flight-end tick listener.  (The source calls `positionProperty.addSample`
without a null guard in both branches; a null `positionProperty` — which no
drone entity ever has — is modelled as skipping the call.) -/
def moveDronePoint (o : MoveDroneOptions) (s : MapState) : MapState × MoveOutcome :=
  if !s.mapPresent then (s, .noMap)
  else
    let speed := JSNum.orDefault o.speed 10
    let height := JSNum.orDefault o.height 0
    match lookupKey o.pointId s.graphicMap with
    | none =>
      ((setDronePointByGlb ⟨o.pointId, o.lng, o.lat, some height, some (JSNum.num 0)⟩ s).1,
        .created)
    | some modelEntity =>
      let c1 : Option Cart3 :=
        if modelEntity.hasEntity then evalEntityPos modelEntity s.clock.currentTime else none
      let c2 : Option Cart3 :=
        match c1 with
        | some p => some p
        | none => modelEntity.positionProperty.bind (fun pp => pp.getValue s.clock.currentTime)
      let c3 : Option Cart3 :=
        match c2 with
        | some p => some p
        | none => modelEntity.currentPosition
      let currentRealPosition := c3.getD (fromDegrees o.lng o.lat height)
      let s1 := (moveDroneTrail o.pointId currentRealPosition s).1
      let ticks1 :=
        match modelEntity.flightEndListener with
        | some fid => s1.tickListeners.erase (Listener.flightEnd o.pointId fid)
        | none => s1.tickListeners
      let g1 := { modelEntity with flightEndListener := none, isFlying := false }
      let g2 :=
        match g1.positionProperty with
        | some _ =>
          { g1 with
            positionProperty :=
              some (SampledPositionProperty.addSample ⟨[]⟩ s.clock.currentTime currentRealPosition)
            entityPos := .sampled }
        | none => g1
      let targetPosition := fromDegrees o.lng o.lat height
      let dist := cartDistance currentRealPosition targetPosition
      if dist.ltb (JSNum.num (Q.norm 1 10)) then
        let g3 := { g2 with
          currentPosition := some targetPosition
          positionProperty :=
            g2.positionProperty.map (fun pp => pp.addSample s.clock.currentTime targetPosition)
          entityPos := .sampled }
        let s2 := { s1 with tickListeners := ticks1,
                            graphicMap := setKey o.pointId g3 s1.graphicMap }
        ((moveDroneTrail o.pointId targetPosition s2).1, .snapped)
      else
        let flightDuration := dist.div speed
        let flightEndTime := addSeconds s.clock.currentTime flightDuration
        let fid := s1.nextId
        let g3 := { g2 with
          positionProperty :=
            g2.positionProperty.map (fun pp =>
              (pp.addSample s.clock.currentTime currentRealPosition).addSample
                flightEndTime targetPosition)
          isFlying := true
          currentPosition := some currentRealPosition
          flightEndListener := some fid }
        let clock' := { s1.clock with
          shouldAnimate := true
          startTime := s.clock.currentTime
          stopTime := flightEndTime
          clockRange := .UNBOUNDED }
        ({ s1 with
            clock := clock'
            graphicMap := setKey o.pointId g3 s1.graphicMap
            tickListeners :=
              ticks1 ++ [Listener.trailUpdate o.pointId fid, Listener.flightEnd o.pointId fid]
            nextId := fid + 1 },
          .flying flightDuration)

/-- A point of the replay data (`replayPath.ts`); `timestamp` is epoch
seconds.  (A NaN timestamp would make the JavaScript sort comparator's
behaviour unspecified, so timestamps are modelled as plain rationals.) -/
structure ReplayPoint where
  lng : JSNum
  lat : JSNum
  height : Option JSNum
  timestamp : Q
deriving DecidableEq, Repr

/-- Options of `replayDronePath`.  (`startTime`/`endTime` appear in the
source's option type but are never read by the function body.) -/
structure ReplayOptions where
  droneId : String
  replayData : List ReplayPoint
  speed : Option JSNum
  loop : Option Bool
deriving DecidableEq, Repr

/-- Stable insertion of a replay point into a timestamp-ascending list: the
new point goes after existing points with an equal timestamp, matching the
stable `Array.prototype.sort` with comparator `(a, b) => a.timestamp -
b.timestamp`. -/
def insertByTimestamp (p : ReplayPoint) : List ReplayPoint → List ReplayPoint
  | [] => [p]
  | q :: rest =>
    if q.timestamp.ble p.timestamp then q :: insertByTimestamp p rest
    else p :: q :: rest

/-- The stable ascending-timestamp sort of `replayDronePath` (line 68). -/
def sortReplayData (l : List ReplayPoint) : List ReplayPoint :=
  l.foldl (fun acc p => insertByTimestamp p acc) []

/-- The replay controller handle returned by `replayDronePath`, together with
the state its closures capture (`hasPlayed`, `cartesianPositions`, the tick
handler's identity). -/
structure ReplayController where
  droneId : String
  sessionId : ℕ
  hasPlayed : Bool
  isPlaying : Bool
  speed : JSNum
  loop : Bool
  cartesianPositions : List (JSNum × Cart3)
deriving DecidableEq, Repr

/-- Result channel of a transport operation: `warnedBeforePlay` models the
`console.warn` no-op taken when `hasPlayed` is false, `ignored` the silent
no-op of a state guard (e.g. pausing while not playing), `applied` an
effective call. -/
inductive TransportResult where
  | warnedBeforePlay
  | applied
  | ignored
deriving DecidableEq, Repr

/-- `playReplay`: start playback — set the clock running, mark the controller
playing and record that `play` has happened. -/
def playReplay (s : MapState) (rc : ReplayController) :
    MapState × ReplayController × TransportResult :=
  if !rc.isPlaying then
    ({ s with clock := { s.clock with shouldAnimate := true } },
     { rc with isPlaying := true, hasPlayed := true }, .applied)
  else (s, rc, .ignored)

/-- `continueReplay`: warn and no-op before the first `play`; otherwise, when
not playing, restore the clock rate to the controller's speed and resume. -/
def continueReplay (s : MapState) (rc : ReplayController) :
    MapState × ReplayController × TransportResult :=
  if !rc.hasPlayed then (s, rc, .warnedBeforePlay)
  else if !rc.isPlaying then
    ({ s with clock := { s.clock with multiplier := rc.speed, shouldAnimate := true } },
     { rc with isPlaying := true }, .applied)
  else (s, rc, .ignored)

/-- `pauseReplay`: warn and no-op before the first `play`; otherwise, when
playing, halt the clock without touching its current time. -/
def pauseReplay (s : MapState) (rc : ReplayController) :
    MapState × ReplayController × TransportResult :=
  if !rc.hasPlayed then (s, rc, .warnedBeforePlay)
  else if rc.isPlaying then
    ({ s with clock := { s.clock with shouldAnimate := false } },
     { rc with isPlaying := false }, .applied)
  else (s, rc, .ignored)

/-- `stopReplay`: warn and no-op before the first `play`; otherwise halt the
clock, rewind its current time to `clock.startTime`, mark not playing, and
snap the drone entity to the first replay waypoint (a raw constant position,
replacing the curve).  (The source snaps through the closure-captured
`droneEntity` object; since that is the registered object, the snap is
modelled as a registry update at the session's drone id.) -/
def stopReplay (s : MapState) (rc : ReplayController) :
    MapState × ReplayController × TransportResult :=
  if !rc.hasPlayed then (s, rc, .warnedBeforePlay)
  else
    let s1 := { s with clock :=
      { s.clock with shouldAnimate := false, currentTime := s.clock.startTime } }
    let rc1 := { rc with isPlaying := false }
    let s2 :=
      match lookupKey rc.droneId s1.graphicMap with
      | some g =>
        if g.hasEntity then
          match rc.cartesianPositions.head? with
          | some tp =>
            { s1 with graphicMap := setKey rc.droneId { g with entityPos := .const tp.2 } s1.graphicMap }
          | none => s1
        else s1
      | none => s1
    (s2, rc1, .applied)

/-- `seekReplay`: warn and no-op before the first `play`; otherwise move the
clock's current time to `clock.startTime + time` seconds, keeping the clock
animating when the controller is playing. -/
def seekReplay (time : JSNum) (s : MapState) (rc : ReplayController) :
    MapState × ReplayController × TransportResult :=
  if !rc.hasPlayed then (s, rc, .warnedBeforePlay)
  else
    let targetTime := addSeconds s.clock.startTime time
    let clock1 := { s.clock with currentTime := targetTime }
    let clock2 := if rc.isPlaying then { clock1 with shouldAnimate := true } else clock1
    ({ s with clock := clock2 }, rc, .applied)

/-- `destroyReplay`: warn and no-op before the first `play` (also after a
previous destroy, which resets `hasPlayed`); otherwise mark not playing, set
the clock's current time to wall-clock "now" shifted by the hard-coded
+8 h China offset, put the clock in animated `UNBOUNDED` mode, clear the
drone's trail, remove the drone entity and its registry entry, unsubscribe
the session's tick listener and reset `hasPlayed`.  `wallNow` is the external
`new Date()` reading in epoch seconds. -/
def destroyReplay (wallNow : Q) (s : MapState) (rc : ReplayController) :
    MapState × ReplayController × TransportResult :=
  if !rc.hasPlayed then (s, rc, .warnedBeforePlay)
  else
    let chinaTime : Q := wallNow.add ((8 : Q).mul ((60 : Q).mul 60))
    let s1 := { s with clock := { s.clock with
      currentTime := JSNum.num chinaTime
      shouldAnimate := true
      clockRange := .UNBOUNDED } }
    let s2 := clearDroneTrail rc.droneId s1
    let s3 :=
      match lookupKey rc.droneId s2.graphicMap with
      | some g =>
        if g.hasEntity then { s2 with graphicMap := eraseKey rc.droneId s2.graphicMap }
        else s2
      | none => s2
    let s4 := { s3 with tickListeners := s3.tickListeners.erase (Listener.replayTick rc.sessionId) }
    (s4, { rc with isPlaying := false, hasPlayed := false }, .applied)

/-- `replayDronePath` (`replayPath.ts`): create a replay session.  Requires
the map and at least 2 replay points; sorts the data by timestamp; creates
the drone entity and its trail when missing; replaces the trail's content
with all waypoints at once; builds the session's sampled position curve and
installs it on the entity; subscribes the session's tick handler; finally
pauses the shared clock (`shouldAnimate = false`), touching no other clock
field. -/
def replayDronePath (o : ReplayOptions) (s : MapState) :
    MapState × Option ReplayController :=
  if !s.mapPresent then (s, none)
  else if o.replayData.length < 2 then (s, none)
  else
    match sortReplayData o.replayData with
    | [] => (s, none)
    | firstPoint :: restSorted =>
      let sortedData := firstPoint :: restSorted
      let s1 :=
        match lookupKey o.droneId s.graphicMap with
        | some _ => s
        | none =>
          (setDronePointByGlb
            ⟨o.droneId, firstPoint.lng, firstPoint.lat,
              some (JSNum.orDefault firstPoint.height 0), some (JSNum.num 0)⟩ s).1
      let trailId := o.droneId ++ "_trail"
      let s2 :=
        match lookupKey trailId s1.droneTrails with
        | some _ => s1
        | none =>
          (setDroneTrail o.droneId
            (fromDegrees firstPoint.lng firstPoint.lat
              (JSNum.orDefault firstPoint.height 0)) s1).1
      let cartesianPositions := sortedData.map (fun p =>
        (JSNum.num p.timestamp, fromDegrees p.lng p.lat (JSNum.orDefault p.height 0)))
      let newPts := cartesianPositions.map (fun tp => (⟨tp.2, tp.1⟩ : TrailPoint))
      let lastUpd := (cartesianPositions.getLast?.map Prod.fst).getD JSNum.nan
      let s3 :=
        match lookupKey trailId s2.droneTrails with
        | some td =>
          { s2 with droneTrails :=
              setKey trailId { td with positions := newPts, lastUpdateTime := lastUpd } s2.droneTrails }
        | none => s2
      let positionProperty :=
        cartesianPositions.foldl (fun sp tp => sp.addSample tp.1 tp.2)
          (⟨[]⟩ : SampledPositionProperty)
      let s4 :=
        match lookupKey o.droneId s3.graphicMap with
        | some g =>
          if g.hasEntity then
            let g' := { g with entityPos := .sampled, positionProperty := some positionProperty }
            { s3 with graphicMap := setKey o.droneId g' s3.graphicMap }
          else s3
        | none => s3
      let sessionId := s4.nextId
      let s5 := { s4 with
        tickListeners := s4.tickListeners ++ [Listener.replayTick sessionId]
        nextId := sessionId + 1 }
      let s6 := { s5 with clock := { s5.clock with shouldAnimate := false } }
      (s6, some
        { droneId := o.droneId
          sessionId := sessionId
          hasPlayed := false
          isPlaying := false
          speed := JSNum.orDefault o.speed 1
          loop := o.loop.getD false
          cartesianPositions := cartesianPositions })

/-- `configureClock` (`replayPath.ts`): set the shared clock window used by
subsequent replay sessions (start/stop bounds, current time at the start,
rate, loop-or-clamp range policy, animating). -/
def configureClock (startTime endTime speed : Q) (loop : Bool) (s : MapState) :
    MapState :=
  if !s.mapPresent then s
  else
    { s with clock :=
      { currentTime := JSNum.num startTime
        startTime := JSNum.num startTime
        stopTime := JSNum.num endTime
        multiplier := JSNum.num speed
        clockRange := if loop then .LOOP_STOP else .CLAMPED
        shouldAnimate := true } }

/-- Well-formedness of a time value: an actual number with a positive
denominator (every number the model constructs satisfies this). -/
def timestampWF : JSNum → Prop
  | .nan => False
  | .num q => 0 < q.den

/-- Is this tick listener the flight-completion listener of the given
point?  (Identifies the listener kind the preemption invariant counts.) -/
def isFlightEndFor (pointId : String) : Listener → Bool
  | .flightEnd p _ => p = pointId
  | _ => false

/-! ### Concrete fixtures used by witnesses and counterexamples -/

/-- A point at height `h` above the origin of the chart. -/
def pZ (h : Q) : Cart3 := ⟨.num 0, .num 0, .num h⟩

/-- The origin. -/
def pA : Cart3 := pZ 0

/-- A drone graphic as `setDronePointByGlb` builds it, parked at `pA` with a
one-sample curve anchored at time 0. -/
def droneA : Graphic :=
  { hasEntity := true
    entityPos := .sampled
    positionProperty := some ⟨[(.num 0, pA)]⟩
    currentPosition := some pA
    isFlying := false
    flightEndListener := none
    position := none
    orientation := none }

/-- The drone's trail with its initial point. -/
def trailA : TrailData :=
  { hasEntity := true
    positions := [⟨pA, .num 0⟩]
    lastUpdateTime := .num 0
    isVisible := true }

/-- A clock at time 0, paused. -/
def clockA : Clock :=
  { currentTime := .num 0, startTime := .num 0, stopTime := .num 0,
    multiplier := .num 1, clockRange := .CLAMPED, shouldAnimate := false }

/-- A scene holding the single parked drone `"d1"`, unbounded trail
retention. -/
def stateA : MapState :=
  { mapPresent := true
    graphicMap := [("d1", droneA)]
    droneTrails := [("d1_trail", trailA)]
    trailTime := -1
    clock := clockA
    tickListeners := []
    nextId := 0 }

/-- First flight command: climb 1000 m at 100 m/s (the spec's example:
distance 1000 m, speed 100 m/s). -/
def moveCmd1 : MoveDroneOptions :=
  { pointId := "d1", lng := .num 0, lat := .num 0, height := some (.num 1000),
    speed := some (.num 100) }

/-- The state after the first flight command. -/
def stateB : MapState := (moveDronePoint moveCmd1 stateA).1

/-- `stateB` with the clock advanced 5 s (mid-flight). -/
def stateBMid : MapState :=
  { stateB with clock := { stateB.clock with currentTime := .num 5 } }

/-- Second (preempting) flight command issued mid-flight. -/
def moveCmd2 : MoveDroneOptions :=
  { pointId := "d1", lng := .num 0, lat := .num 0, height := some (.num 2000),
    speed := some (.num 100) }

/-- The graphic of `"d1"` inside `stateB`/`stateBMid`: mid-first-flight,
curve from height 0 (t = 0 s) to height 1000 (t = 10 s). -/
def gB : Graphic :=
  { hasEntity := true
    entityPos := .sampled
    positionProperty := some ⟨[(.num 0, pA), (.num 10, pZ 1000)]⟩
    currentPosition := some pA
    isFlying := true
    flightEndListener := some 0
    position := none
    orientation := none }

/-- A command with a NaN longitude. -/
def moveCmdNaN : MoveDroneOptions :=
  { pointId := "d1", lng := .nan, lat := .num 0, height := some (.num 1000),
    speed := some (.num 100) }

/-- A `movePoint` command with a NaN latitude. -/
def movePointCmdNaN : MovePointOptions :=
  { pointId := "d1", lng := .num 3, lat := .nan, height := some (.num 4),
    heading := none, pitch := none }

/-- An empty scene for replay sessions. -/
def replayBase : MapState :=
  { mapPresent := true
    graphicMap := []
    droneTrails := []
    trailTime := -1
    clock := clockA
    tickListeners := []
    nextId := 0 }

/-- Replay waypoint at t = 100 s. -/
def repPointA : ReplayPoint :=
  { lng := .num 0, lat := .num 0, height := some (.num 100), timestamp := 100 }

/-- Replay waypoint at t = 110 s. -/
def repPointB : ReplayPoint :=
  { lng := .num 0, lat := .num 0, height := some (.num 300), timestamp := 110 }

/-- A replay session request (data deliberately unsorted). -/
def repCmd : ReplayOptions :=
  { droneId := "r1", replayData := [repPointB, repPointA], speed := none,
    loop := none }

/-- The scene after the caller configures the shared clock window, as the
observed usage pattern does before starting sessions. -/
def replayReady : MapState := configureClock 100 110 1 false replayBase

/-- The scene holding the loaded replay session. -/
def stateR : MapState := (replayDronePath repCmd replayReady).1

/-- Fallback controller (never used: the fixture session is created). -/
def rcFallback : ReplayController :=
  { droneId := "", sessionId := 0, hasPlayed := false, isPlaying := false,
    speed := .nan, loop := false, cartesianPositions := [] }

/-- The controller of the fixture session. -/
def rcR : ReplayController := ((replayDronePath repCmd replayReady).2).getD rcFallback

/-- Scene and controller after `play()`. -/
def stateP : MapState := (playReplay stateR rcR).1

/-- The controller after `play()`. -/
def rcP : ReplayController := (playReplay stateR rcR).2.1

/-- The fixture session's sampled curve: heights 100 m and 300 m at
t = 100 s and t = 110 s. -/
def spR : SampledPositionProperty :=
  ⟨[(.num 100, pZ 100), (.num 110, pZ 300)]⟩

/-- The graphic of `"r1"` inside `stateR`/`stateP`. -/
def gR : Graphic :=
  { hasEntity := true
    entityPos := .sampled
    positionProperty := some spR
    currentPosition := some (pZ 100)
    isFlying := false
    flightEndListener := none
    position := none
    orientation := none }

/-- A replay waypoint used twice at the same spot (a hovering drone),
t = 100 s. -/
def repDupA : ReplayPoint :=
  { lng := .num 1, lat := .num 2, height := some (.num 7), timestamp := 100 }

/-- The same spot again at t = 101 s. -/
def repDupB : ReplayPoint :=
  { lng := .num 1, lat := .num 2, height := some (.num 7), timestamp := 101 }

/-- A session whose consecutive waypoints are 0 m apart. -/
def repDupCmd : ReplayOptions :=
  { droneId := "r2", replayData := [repDupA, repDupB], speed := none,
    loop := none }

/-- The scene after loading the hovering session. -/
def stateDup : MapState := (replayDronePath repDupCmd replayBase).1

/-- A trail whose points are old (t = 0 s and t = 60 s). -/
def trailTrim : TrailData :=
  { hasEntity := true
    positions := [⟨pZ 0, .num 0⟩, ⟨pZ 10, .num 60⟩]
    lastUpdateTime := .num 60
    isVisible := true }

/-- A scene at t = 100 s with a 30 s retention window: recording a point now
must prune both old points. -/
def stateTrim : MapState :=
  { mapPresent := true
    graphicMap := [("d1", droneA)]
    droneTrails := [("d1_trail", trailTrim)]
    trailTime := 30
    clock := { clockA with currentTime := .num 100 }
    tickListeners := []
    nextId := 0 }

/-- The same scene with the unbounded-retention sentinel. -/
def stateGap : MapState := { stateTrim with trailTime := -1 }

/-- The Trail Store's minimum-gap relation between consecutive points:
strictly more than `MIN_DISTANCE = 1` metre apart. -/
def minGapExceeded (a b : TrailPoint) : Prop :=
  (cartDistance a.position b.position).gtb (JSNum.num 1) = true

/-- The repeated hover position of the duplicate-waypoint session. -/
def pDup : Cart3 := fromDegrees (.num 1) (.num 2) (.num 7)

instance (a b : TrailPoint) : Decidable (minGapExceeded a b) :=
  inferInstanceAs (Decidable (_ = true))

instance : (t : JSNum) → Decidable (timestampWF t)
  | .nan => inferInstanceAs (Decidable False)
  | .num q => inferInstanceAs (Decidable (0 < q.den))

/-! ### Order and registry lemmas -/

/-- `<` on JavaScript numbers is irreflexive. -/
lemma JSNum.ltb_self (t : JSNum) : t.ltb t = false := by
  cases t with
  | nan => rfl
  | num q => simp [JSNum.ltb, Q.blt]

/-- `<` on JavaScript numbers is asymmetric. -/
lemma JSNum.ltb_asymm {a b : JSNum} (h : a.ltb b = true) : b.ltb a = false := by
  cases a with
  | nan => simp [JSNum.ltb] at h
  | num qa =>
    cases b with
    | nan => simp [JSNum.ltb] at h
    | num qb =>
      simp only [JSNum.ltb, Q.blt, decide_eq_true_eq] at h
      simp only [JSNum.ltb, Q.blt, decide_eq_false_iff_not]
      omega

/-- A strict comparison that holds excludes equality. -/
lemma JSNum.ne_of_ltb {a b : JSNum} (h : a.ltb b = true) : b ≠ a := by
  intro he
  subst he
  rw [JSNum.ltb_self] at h
  exact Bool.false_ne_true h

/-- A strictly smaller number is not `≥`: `a < b → ¬ (b ≤ a)`. -/
lemma JSNum.leb_eq_false_of_ltb {a b : JSNum} (h : a.ltb b = true) :
    b.leb a = false := by
  cases a with
  | nan => simp [JSNum.ltb] at h
  | num qa =>
    cases b with
    | nan => simp [JSNum.ltb] at h
    | num qb =>
      simp only [JSNum.ltb, Q.blt, decide_eq_true_eq] at h
      simp only [JSNum.leb, Q.ble, decide_eq_false_iff_not]
      omega

/-- Monotonicity used by trail pruning: if `t` is at least `c` and `u` is at
least `t` then `u` is at least `c`. -/
lemma JSNum.geb_mono {t u c : JSNum} (hwf : timestampWF t)
    (hle : t.leb u = true) (hge : t.geb c = true) : u.geb c = true := by
  cases t with
  | nan => exact absurd hwf (by simp [timestampWF])
  | num qt =>
    cases u with
    | nan => simp [JSNum.leb] at hle
    | num qu =>
      cases c with
      | nan => simp [JSNum.geb] at hge
      | num qc =>
        simp only [timestampWF] at hwf
        simp only [JSNum.leb, JSNum.geb, Q.ble, decide_eq_true_eq] at hle hge ⊢
        nlinarith [Int.natCast_nonneg qu.den, Int.natCast_nonneg qc.den,
          mul_le_mul_of_nonneg_right hge (Int.natCast_nonneg qu.den),
          mul_le_mul_of_nonneg_right hle (Int.natCast_nonneg qc.den)]

/-- Looking up the key just written yields the written value. -/
lemma lookupKey_setKey_self {α : Type} (k : String) (v : α) :
    ∀ l : List (String × α), lookupKey k (setKey k v l) = some v := by
  intro l
  induction l with
  | nil => simp [setKey, lookupKey]
  | cons hd tl ih =>
    by_cases h : hd.1 = k
    · simp [setKey, lookupKey, h]
    · simp [setKey, lookupKey, h, ih]

/-- Writing one key leaves every other key's lookup unchanged. -/
lemma lookupKey_setKey_other {α : Type} {k k' : String} (hne : k' ≠ k) (v : α) :
    ∀ l : List (String × α), lookupKey k' (setKey k v l) = lookupKey k' l := by
  intro l
  induction l with
  | nil => simp [setKey, lookupKey, Ne.symm hne]
  | cons hd tl ih =>
    obtain ⟨k0, v0⟩ := hd
    by_cases h : k0 = k
    · subst h
      simp [setKey, lookupKey, Ne.symm hne]
    · simp [setKey, lookupKey, h, ih]

/-- Looking up a deleted key yields nothing. -/
lemma lookupKey_eraseKey_self {α : Type} (k : String) :
    ∀ l : List (String × α), lookupKey k (eraseKey k l) = none := by
  intro l
  induction l with
  | nil => simp [eraseKey, lookupKey]
  | cons hd tl ih =>
    by_cases h : hd.1 = k
    · simp [eraseKey, h, ih]
    · simp [eraseKey, lookupKey, h, ih]

/-! ### Curve evaluation lemmas -/

namespace SampledPositionProperty

/-- Queries at or before the first sample clamp to it. -/
lemma getValue_of_leb_first {sp : SampledPositionProperty} {t0 : JSNum}
    {p0 : Cart3} {rest : List (JSNum × Cart3)} {t : JSNum}
    (h : sp.samples = (t0, p0) :: rest) (hle : t.leb t0 = true) :
    sp.getValue t = some p0 := by
  simp [getValue, h, hle]

/-- The evaluation tail returns the last sample when the query time lies
strictly after every remaining sample time. -/
lemma getValueFrom_last (t : JSNum) :
    ∀ (l : List (JSNum × Cart3)) (t1 : JSNum) (p1 : Cart3),
      (∀ s ∈ l, s.1.ltb t = true) →
      getValueFrom t t1 p1 l = (l.getLastD (t1, p1)).2 := by
  intro l
  induction l with
  | nil => intro t1 p1 _; rfl
  | cons hd tl ih =>
    intro t1 p1 hall
    obtain ⟨t2, p2⟩ := hd
    have h2 : JSNum.ltb t2 t = true := hall (t2, p2) (by simp)
    have hle : t.leb t2 = false := JSNum.leb_eq_false_of_ltb h2
    simp only [getValueFrom, hle, Bool.false_eq_true, if_false, List.getLastD_cons]
    exact ih t2 p2 (fun s hs => hall s (by simp [hs]))

/-- Queries after the last sample clamp to it. -/
lemma getValue_of_after_last {sp : SampledPositionProperty} {t0 : JSNum}
    {p0 : Cart3} {rest : List (JSNum × Cart3)} {t : JSNum}
    (h : sp.samples = (t0, p0) :: rest)
    (hall : ∀ s ∈ sp.samples, s.1.ltb t = true) :
    sp.getValue t = some ((rest.getLastD (t0, p0)).2) := by
  have h0 : JSNum.ltb t0 t = true := hall (t0, p0) (by simp [h])
  have hle : t.leb t0 = false := JSNum.leb_eq_false_of_ltb h0
  simp only [getValue, h, hle, Bool.false_eq_true, if_false]
  rw [getValueFrom_last t rest t0 p0 (fun s hs => hall s (by simp [h, hs]))]

/-- With a single sample, every query degenerates to that sample. -/
lemma getValue_single {sp : SampledPositionProperty} {t0 : JSNum} {p0 : Cart3}
    (h : sp.samples = [(t0, p0)]) (t : JSNum) : sp.getValue t = some p0 := by
  by_cases hle : t.leb t0 = true
  · exact getValue_of_leb_first h hle
  · simp [getValue, h, hle, getValueFrom]

/-- A non-empty curve always evaluates to a position. -/
lemma getValue_isSome {sp : SampledPositionProperty} {t0 : JSNum} {p0 : Cart3}
    {rest : List (JSNum × Cart3)} (h : sp.samples = (t0, p0) :: rest)
    (t : JSNum) : (sp.getValue t).isSome = true := by
  by_cases hle : t.leb t0 = true
  · rw [getValue_of_leb_first h hle]; rfl
  · simp [getValue, h, hle]

end SampledPositionProperty

/-! ### State-shape lemmas: which operations touch which registries -/

/-- `setDroneTrail` writes only the trail registry: every other state
component is untouched. -/
lemma setDroneTrail_frame (droneId : String) (p : Cart3) (s : MapState) :
    ((setDroneTrail droneId p s).1).mapPresent = s.mapPresent ∧
    ((setDroneTrail droneId p s).1).graphicMap = s.graphicMap ∧
    ((setDroneTrail droneId p s).1).trailTime = s.trailTime ∧
    ((setDroneTrail droneId p s).1).clock = s.clock ∧
    ((setDroneTrail droneId p s).1).tickListeners = s.tickListeners ∧
    ((setDroneTrail droneId p s).1).nextId = s.nextId := by
  by_cases hm : s.mapPresent
  · cases h : lookupKey (droneId ++ "_trail") s.droneTrails <;>
      simp [setDroneTrail, hm, h]
  · simp [setDroneTrail, hm]

/-- `moveDroneTrail` writes only the trail registry: every other state
component is untouched. -/
lemma moveDroneTrail_frame (droneId : String) (p : Cart3) (s : MapState) :
    ((moveDroneTrail droneId p s).1).mapPresent = s.mapPresent ∧
    ((moveDroneTrail droneId p s).1).graphicMap = s.graphicMap ∧
    ((moveDroneTrail droneId p s).1).trailTime = s.trailTime ∧
    ((moveDroneTrail droneId p s).1).clock = s.clock ∧
    ((moveDroneTrail droneId p s).1).tickListeners = s.tickListeners ∧
    ((moveDroneTrail droneId p s).1).nextId = s.nextId := by
  by_cases hm : s.mapPresent
  · cases h : lookupKey (droneId ++ "_trail") s.droneTrails with
    | some td =>
      cases hl : td.positions.getLast? with
      | some lp =>
        by_cases hd : (cartDistance lp.position p).gtb (JSNum.num 1) = true <;>
          simp [moveDroneTrail, hm, h, hl, hd]
      | none => simp [moveDroneTrail, hm, h, hl]
    | none =>
      have hf := setDroneTrail_frame droneId p s
      simpa [moveDroneTrail, hm, h] using hf
  · simp [moveDroneTrail, hm]

/-- `setDronePointByGlb` writes only the graphic and trail registries: the
clock, the listener list and the id counter are untouched. -/
lemma setDronePointByGlb_frame (o : GlbPointOptions) (s : MapState) :
    ((setDronePointByGlb o s).1).mapPresent = s.mapPresent ∧
    ((setDronePointByGlb o s).1).trailTime = s.trailTime ∧
    ((setDronePointByGlb o s).1).clock = s.clock ∧
    ((setDronePointByGlb o s).1).tickListeners = s.tickListeners ∧
    ((setDronePointByGlb o s).1).nextId = s.nextId := by
  by_cases hm : s.mapPresent
  · cases h : lookupKey o.id s.graphicMap with
    | some g => simp [setDronePointByGlb, hm, h]
    | none =>
      have hf := setDroneTrail_frame o.id
        (fromDegrees o.lng o.lat (JSNum.orDefault o.height 0)) s
      simp [setDronePointByGlb, hm, h, hf.1, hf.2.2.1, hf.2.2.2.1,
        hf.2.2.2.2.1, hf.2.2.2.2.2]
  · simp [setDronePointByGlb, hm]

/-- Stable insertion grows a list by one element. -/
lemma insertByTimestamp_length (p : ReplayPoint) :
    ∀ l : List ReplayPoint, (insertByTimestamp p l).length = l.length + 1 := by
  intro l
  induction l with
  | nil => rfl
  | cons q rest ih =>
    by_cases h : q.timestamp.ble p.timestamp = true <;>
      simp [insertByTimestamp, h, ih]

/-- The replay sort is a permutation in length. -/
lemma sortReplayData_length (l : List ReplayPoint) :
    (sortReplayData l).length = l.length := by
  suffices h : ∀ (l acc : List ReplayPoint),
      (l.foldl (fun acc p => insertByTimestamp p acc) acc).length =
        acc.length + l.length by
    simpa using h l []
  intro l
  induction l with
  | nil => intro acc; simp
  | cons p rest ih =>
    intro acc
    simp only [List.foldl_cons, ih, insertByTimestamp_length, List.length_cons]
    omega

/-- Building the two-sample flight curve: re-anchoring at the same time
overwrites the anchor, and the (strictly later) end sample is appended. -/
lemma addSample_flight_pair (t endT : JSNum) (cur target : Cart3)
    (hlt : t.ltb endT = true) :
    ((SampledPositionProperty.addSample ⟨[]⟩ t cur).addSample t cur).addSample
      endT target = ⟨[(t, cur), (endT, target)]⟩ := by
  have h1 : endT.ltb t = false := JSNum.ltb_asymm hlt
  have h2 : endT ≠ t := JSNum.ne_of_ltb hlt
  simp [SampledPositionProperty.addSample, SampledPositionProperty.insertSample,
    JSNum.ltb_self, h1, h2]

/-- If exactly one element of a list passes a test, removing it leaves no
element passing the test. -/
lemma filter_erase_of_filter_singleton {l : List Listener} {a : Listener}
    {p : Listener → Bool} (h : l.filter p = [a]) : (l.erase a).filter p = [] := by
  induction l with
  | nil => simp at h
  | cons hd tl ih =>
    by_cases hp : p hd = true
    · have hcons : hd = a ∧ tl.filter p = [] := by
        have := h
        rw [List.filter_cons_of_pos hp] at this
        exact ⟨(List.cons_eq_cons.mp this).1, (List.cons_eq_cons.mp this).2⟩
      obtain ⟨rfl, htl⟩ := hcons
      rw [List.erase_cons_head, htl]
    · have htl : tl.filter p = [a] := by
        have := h
        rwa [List.filter_cons_of_neg (by simpa using hp)] at this
      by_cases he : hd = a
      · subst he
        have ha : p hd = true := by
          have hmem : hd ∈ tl.filter p := by
            rw [htl]; exact List.mem_singleton_self hd
          exact (List.mem_filter.mp hmem).2
        exact absurd ha hp
      · rw [List.erase_cons_tail (by simpa using he)]
        rw [List.filter_cons_of_neg (by simpa using hp)]
        exact ih htl

/-- On a list sorted by timestamp with well-formed timestamps, the
retention filter keeps a suffix: once a point is inside the window, every
later point is as well. -/
lemma filter_geb_suffix (c : JSNum) :
    ∀ l : List TrailPoint,
      (∀ p ∈ l, timestampWF p.timestamp) →
      l.Pairwise (fun a b => a.timestamp.leb b.timestamp = true) →
      ∃ l₁ l₂, l = l₁ ++ l₂ ∧
        l.filter (fun p => p.timestamp.geb c) = l₂ := by
  intro l
  induction l with
  | nil => intro _ _; exact ⟨[], [], rfl, rfl⟩
  | cons hd tl ih =>
    intro hwf hsort
    by_cases hc : hd.timestamp.geb c = true
    · refine ⟨[], hd :: tl, rfl, ?_⟩
      rw [List.filter_cons, if_pos hc, List.filter_eq_self.mpr]
      intro q hq
      exact JSNum.geb_mono (hwf hd (by simp))
        ((List.pairwise_cons.mp hsort).1 q hq) hc
    · obtain ⟨l₁, l₂, heq, hfil⟩ := ih (fun p hp => hwf p (by simp [hp]))
        (List.pairwise_cons.mp hsort).2
      refine ⟨hd :: l₁, l₂, by simp [heq], ?_⟩
      rw [List.filter_cons, if_neg hc, hfil]

/-- `setDroneTrail` leaves the clock alone. -/
lemma setDroneTrail_clock (i : String) (p : Cart3) (s : MapState) :
    ((setDroneTrail i p s).1).clock = s.clock := (setDroneTrail_frame i p s).2.2.2.1

/-- `setDronePointByGlb` leaves the clock alone. -/
lemma setDronePointByGlb_clock (o : GlbPointOptions) (s : MapState) :
    ((setDronePointByGlb o s).1).clock = s.clock := (setDronePointByGlb_frame o s).2.2.1

/-- `clearDroneTrail` writes only the trail registry. -/
lemma clearDroneTrail_frame (droneId : String) (s : MapState) :
    (clearDroneTrail droneId s).mapPresent = s.mapPresent ∧
    (clearDroneTrail droneId s).graphicMap = s.graphicMap ∧
    (clearDroneTrail droneId s).trailTime = s.trailTime ∧
    (clearDroneTrail droneId s).clock = s.clock ∧
    (clearDroneTrail droneId s).tickListeners = s.tickListeners ∧
    (clearDroneTrail droneId s).nextId = s.nextId := by
  cases h : lookupKey (droneId ++ "_trail") s.droneTrails <;>
    simp [clearDroneTrail, h]

/-- After `clearDroneTrail` the trail is gone (whether or not it existed). -/
lemma clearDroneTrail_lookup (droneId : String) (s : MapState) :
    lookupKey (droneId ++ "_trail") (clearDroneTrail droneId s).droneTrails =
      none := by
  cases h : lookupKey (droneId ++ "_trail") s.droneTrails with
  | none => simp [clearDroneTrail, h]
  | some td => simp [clearDroneTrail, h, lookupKey_eraseKey_self]

/-- Deleting an absent key is a no-op. -/
lemma eraseKey_of_lookup_none {α : Type} {k : String} :
    ∀ {l : List (String × α)}, lookupKey k l = none → eraseKey k l = l := by
  intro l
  induction l with
  | nil => intro _; rfl
  | cons hd tl ih =>
    intro h
    by_cases he : hd.1 = k
    · simp [lookupKey, he] at h
    · simp only [lookupKey, he, if_neg] at h
      simp [eraseKey, he, ih h]

/-- `clearDroneTrail` always equals a plain registry deletion. -/
lemma clearDroneTrail_eq (droneId : String) (s : MapState) :
    clearDroneTrail droneId s =
      { s with droneTrails := eraseKey (droneId ++ "_trail") s.droneTrails } := by
  cases h : lookupKey (droneId ++ "_trail") s.droneTrails with
  | none => simp [clearDroneTrail, h, eraseKey_of_lookup_none h]
  | some td => simp [clearDroneTrail, h]

/-- Closed form of an effective `destroyReplay`: when `play` has happened and
the session's drone (when registered) has its scene entity, the call resets
the clock to animated unbounded mode at the China-offset wall time, deletes
the trail and the graphic, unsubscribes the session's tick listener and
clears both controller flags. -/
lemma destroyReplay_eq (wallNow : Q) (s : MapState) (rc : ReplayController)
    (hp : rc.hasPlayed = true)
    (hg : ∀ g, lookupKey rc.droneId s.graphicMap = some g → g.hasEntity = true) :
    destroyReplay wallNow s rc =
      ({ s with
          clock := { s.clock with
            currentTime := JSNum.num (wallNow.add ((8 : Q).mul ((60 : Q).mul 60)))
            shouldAnimate := true
            clockRange := .UNBOUNDED }
          droneTrails := eraseKey (rc.droneId ++ "_trail") s.droneTrails
          graphicMap := eraseKey rc.droneId s.graphicMap
          tickListeners := s.tickListeners.erase (Listener.replayTick rc.sessionId) },
        { rc with isPlaying := false, hasPlayed := false },
        .applied) := by
  rw [destroyReplay]
  simp only [hp, Bool.not_true, Bool.false_eq_true, if_false]
  rw [clearDroneTrail_eq]
  cases hG : lookupKey rc.droneId s.graphicMap with
  | some g =>
    have hE : g.hasEntity = true := hg g hG
    simp [hG, hE]
  | none =>
    simp [hG, eraseKey_of_lookup_none hG]

/-! ### The claims -/

/-- C4: for every replay session, calling `pause`, `continue`, `stop`,
`seek` or `destroy` before the first `play()` reports a warning and is a
no-op: the scene state (clock current time and running flag included), the
controller (its `isPlaying` flag included), the entity registry and the
trail registry are all returned unchanged. -/
theorem C4_transport_before_play_noop (s : MapState) (rc : ReplayController)
    (h : rc.hasPlayed = false) (t : JSNum) (w : Q) :
    pauseReplay s rc = (s, rc, .warnedBeforePlay) ∧
    continueReplay s rc = (s, rc, .warnedBeforePlay) ∧
    stopReplay s rc = (s, rc, .warnedBeforePlay) ∧
    seekReplay t s rc = (s, rc, .warnedBeforePlay) ∧
    destroyReplay w s rc = (s, rc, .warnedBeforePlay) := by
  simp [pauseReplay, continueReplay, stopReplay, seekReplay, destroyReplay, h]

/-- Witness for C4 on the concrete fixture session (freshly created by
`replayDronePath`, so `play` has not yet happened). -/
theorem C4_transport_before_play_noop_witness :
    rcR.hasPlayed = false ∧
    (pauseReplay stateR rcR = (stateR, rcR, .warnedBeforePlay) ∧
     continueReplay stateR rcR = (stateR, rcR, .warnedBeforePlay) ∧
     stopReplay stateR rcR = (stateR, rcR, .warnedBeforePlay) ∧
     seekReplay (.num 3) stateR rcR = (stateR, rcR, .warnedBeforePlay) ∧
     destroyReplay 1700000000 stateR rcR = (stateR, rcR, .warnedBeforePlay)) :=
  ⟨by decide,
   C4_transport_before_play_noop stateR rcR (by decide) (.num 3) 1700000000⟩

/-- C10: every successful `replayDronePath` call — whatever the prior state
of the shared clock or of other sessions — returns with the shared clock's
running flag (`shouldAnimate`) set to `false` and every other clock field
(current time, bounds, rate, range policy) exactly as it was, so creating a
session pauses whatever was animating until `play()` is called. -/
theorem C10_session_creation_pauses_clock (o : ReplayOptions) (s : MapState)
    (hm : s.mapPresent = true) (hl : 2 ≤ o.replayData.length) :
    ((replayDronePath o s).1).clock = { s.clock with shouldAnimate := false } ∧
    ((replayDronePath o s).2).isSome = true := by
  have hsort := sortReplayData_length o.replayData
  rw [replayDronePath]
  have hnl : ¬ o.replayData.length < 2 := by omega
  simp only [hm, Bool.not_true, Bool.false_eq_true, if_false, hnl, if_neg]
  cases hs : sortReplayData o.replayData with
  | nil =>
    rw [hs] at hsort
    simp at hsort
    omega
  | cons fp rest =>
    constructor
    · repeat' split
      all_goals simp_all [setDronePointByGlb_clock, setDroneTrail_clock]
    · repeat' split
      all_goals simp_all

/-- Witness for C10: loading the fixture session onto a configured, running
clock pauses it and touches nothing else (the fixture clock's current time,
bounds and rate are visibly preserved). -/
theorem C10_session_creation_pauses_clock_witness :
    replayReady.mapPresent = true ∧ 2 ≤ repCmd.replayData.length ∧
    (stateR.clock = { replayReady.clock with shouldAnimate := false } ∧
     ((replayDronePath repCmd replayReady).2).isSome = true) :=
  ⟨by decide, by decide,
   C10_session_creation_pauses_clock repCmd replayReady (by decide) (by decide)⟩

/-- C8: for every sampled position curve with at least one sample, a query
at or before the first sample returns the first sample's position, a query
after the last sample returns the last sample's position (clamped, never an
extrapolated overshoot), a curve with a single sample degenerates to that
sample at every query time, and the evaluation is always defined (never
`undefined`). -/
theorem C8_curve_boundary_clamps (sp : SampledPositionProperty) (t t0 : JSNum)
    (p0 : Cart3) (rest : List (JSNum × Cart3))
    (h : sp.samples = (t0, p0) :: rest) :
    (t.leb t0 = true → sp.getValue t = some p0) ∧
    ((∀ q ∈ sp.samples, q.1.ltb t = true) →
      sp.getValue t = some ((rest.getLastD (t0, p0)).2)) ∧
    (rest = [] → sp.getValue t = some p0) ∧
    (sp.getValue t).isSome = true :=
  ⟨fun hle => SampledPositionProperty.getValue_of_leb_first h hle,
   fun hall => SampledPositionProperty.getValue_of_after_last h hall,
   fun hrest => SampledPositionProperty.getValue_single (by rw [h, hrest]) t,
   SampledPositionProperty.getValue_isSome h t⟩

/-- Witness for C8: on the two-sample flight curve (heights 0 m and 1000 m
at times 0 s and 10 s), a query at −5 s clamps to the first sample, a query
at 20 s clamps to the last; a one-sample curve yields its sample at any
time. -/
theorem C8_curve_boundary_clamps_witness :
    ((⟨[(.num 0, pA), (.num 10, pZ 1000)]⟩ :
        SampledPositionProperty).getValue (.num (-5)) = some pA) ∧
    ((⟨[(.num 0, pA), (.num 10, pZ 1000)]⟩ :
        SampledPositionProperty).getValue (.num 20) = some (pZ 1000)) ∧
    ((⟨[(.num 0, pA)]⟩ : SampledPositionProperty).getValue (.num 77) = some pA) :=
  ⟨(C8_curve_boundary_clamps _ (.num (-5)) (.num 0) pA [(.num 10, pZ 1000)]
      rfl).1 (by decide),
   by
    have h2 := (C8_curve_boundary_clamps ⟨[(.num 0, pA), (.num 10, pZ 1000)]⟩
      (.num 20) (.num 0) pA [(.num 10, pZ 1000)] rfl).2.1 (by decide)
    simpa using h2,
   (C8_curve_boundary_clamps _ (.num 77) (.num 0) pA [] rfl).2.2.1 rfl⟩

/-- C9: for every trail append, when the retention window `w` is not the
`-1` sentinel every surviving point's timestamp is at least
`clockTime - w` (older points are pruned by the append itself) and every
appended-or-previous point within the window survives; with the sentinel
the whole appended list is kept verbatim (no point is ever pruned). -/
theorem C9_trail_retention_window (s : MapState) (droneId : String)
    (td : TrailData) (p : Cart3) (lp : TrailPoint)
    (hm : s.mapPresent = true)
    (ht : lookupKey (droneId ++ "_trail") s.droneTrails = some td)
    (hl : td.positions.getLast? = some lp)
    (hd : (cartDistance lp.position p).gtb (JSNum.num 1) = true) :
    (s.trailTime = -1 →
      lookupKey (droneId ++ "_trail")
          ((moveDroneTrail droneId p s).1).droneTrails =
        some { td with
          positions := td.positions ++ [⟨p, s.clock.currentTime⟩]
          lastUpdateTime := s.clock.currentTime }) ∧
    (s.trailTime ≠ -1 →
      ∀ td', lookupKey (droneId ++ "_trail")
          ((moveDroneTrail droneId p s).1).droneTrails = some td' →
        (∀ q ∈ td'.positions,
          q.timestamp.geb
            (addSeconds s.clock.currentTime (JSNum.num (-s.trailTime))) = true) ∧
        (∀ q ∈ td.positions ++ [(⟨p, s.clock.currentTime⟩ : TrailPoint)],
          q.timestamp.geb
              (addSeconds s.clock.currentTime (JSNum.num (-s.trailTime))) = true →
            q ∈ td'.positions)) := by
  constructor
  · intro hw
    simp [moveDroneTrail, hm, ht, hl, hd, hw, lookupKey_setKey_self]
  · intro hw td' htd'
    simp only [moveDroneTrail, hm, Bool.not_true, Bool.false_eq_true, if_false,
      ht, hl, hd, if_true, hw, if_pos, ne_eq, not_false_iff,
      lookupKey_setKey_self, Option.some.injEq] at htd'
    subst htd'
    constructor
    · intro q hq
      exact (List.mem_filter.mp hq).2
    · intro q hq hpred
      exact List.mem_filter.mpr ⟨hq, hpred⟩

/-- Witness for C9 on the concrete scenes: with a 30 s window at t = 100 s,
appending a point prunes both stale points (recorded at 0 s and 60 s) and
keeps the new one; with the `-1` sentinel the same append keeps all three. -/
theorem C9_trail_retention_window_witness :
    stateTrim.mapPresent = true ∧ stateTrim.trailTime ≠ -1 ∧
    ((lookupKey "d1_trail"
        ((moveDroneTrail "d1" (pZ 20) stateTrim).1).droneTrails).map
      (fun td => td.positions) = some [⟨pZ 20, .num 100⟩]) ∧
    ((lookupKey "d1_trail"
        ((moveDroneTrail "d1" (pZ 20) stateGap).1).droneTrails).map
      (fun td => td.positions) =
        some [⟨pZ 0, .num 0⟩, ⟨pZ 10, .num 60⟩, ⟨pZ 20, .num 100⟩]) ∧
    (stateGap.trailTime = -1 →
      lookupKey ("d1" ++ "_trail")
          ((moveDroneTrail "d1" (pZ 20) stateGap).1).droneTrails =
        some { trailTrim with
          positions := trailTrim.positions ++ [⟨pZ 20, stateGap.clock.currentTime⟩]
          lastUpdateTime := stateGap.clock.currentTime }) :=
  ⟨by decide, by decide, by decide, by decide,
   (C9_trail_retention_window stateGap "d1" trailTrim (pZ 20) ⟨pZ 10, .num 60⟩
      (by decide) (by decide) (by decide) (by decide)).1⟩

/-- C5: after `play()`, `destroy()` halts playback (`isPlaying` false),
restores the clock to animated unbounded mode anchored to the wall-clock
"now" reading (shifted by the hard-coded +8 h offset), clears the session's
trail, removes its entity from the registry, and unsubscribes its tick
listener; the resulting state is terminal for the transport operations — a
repeated `destroy()`, and `pause`/`continue`/`stop`/`seek`, are all
warning no-ops until an intervening `play()`. -/
theorem C5_destroy_after_play (s : MapState) (rc : ReplayController)
    (wallNow : Q) (hp : rc.hasPlayed = true)
    (hcount : s.tickListeners.count (Listener.replayTick rc.sessionId) ≤ 1)
    (hg : ∀ g, lookupKey rc.droneId s.graphicMap = some g → g.hasEntity = true) :
    ∀ s' rc' r, destroyReplay wallNow s rc = (s', rc', r) →
      r = .applied ∧
      rc'.isPlaying = false ∧ rc'.hasPlayed = false ∧
      s'.clock.currentTime =
        JSNum.num (wallNow.add ((8 : Q).mul ((60 : Q).mul 60))) ∧
      s'.clock.shouldAnimate = true ∧
      s'.clock.clockRange = .UNBOUNDED ∧
      lookupKey (rc.droneId ++ "_trail") s'.droneTrails = none ∧
      lookupKey rc.droneId s'.graphicMap = none ∧
      Listener.replayTick rc.sessionId ∉ s'.tickListeners ∧
      (∀ w2, destroyReplay w2 s' rc' = (s', rc', .warnedBeforePlay)) ∧
      pauseReplay s' rc' = (s', rc', .warnedBeforePlay) ∧
      continueReplay s' rc' = (s', rc', .warnedBeforePlay) ∧
      stopReplay s' rc' = (s', rc', .warnedBeforePlay) ∧
      (∀ t, seekReplay t s' rc' = (s', rc', .warnedBeforePlay)) := by
  intro s' rc' r heq
  rw [destroyReplay_eq wallNow s rc hp hg] at heq
  injection heq with h1 h23
  injection h23 with h2 h3
  subst h1
  subst h2
  subst h3
  have hnm : Listener.replayTick rc.sessionId ∉
      s.tickListeners.erase (Listener.replayTick rc.sessionId) := by
    refine List.count_eq_zero.mp ?_
    rw [List.count_erase_self]
    omega
  refine ⟨rfl, rfl, rfl, rfl, rfl, rfl,
    lookupKey_eraseKey_self _ _, lookupKey_eraseKey_self _ _, hnm,
    ?_, ?_, ?_, ?_, ?_⟩
  · intro w2; simp [destroyReplay]
  · simp [pauseReplay]
  · simp [continueReplay]
  · simp [stopReplay]
  · intro t; simp [seekReplay]

/-- Witness for C5: destroying the fixture session after `play()` — the
clock lands on the wall-time reading plus 28800 s, animated and unbounded,
the drone `"r1"` and its trail are gone, no tick listener of the session
remains, and each further transport call is a warning no-op. -/
theorem C5_destroy_after_play_witness :
    rcP.hasPlayed = true ∧
    (∀ s' rc' r, destroyReplay 1700000000 stateP rcP = (s', rc', r) →
      r = .applied ∧
      rc'.isPlaying = false ∧ rc'.hasPlayed = false ∧
      s'.clock.currentTime =
        JSNum.num ((1700000000 : Q).add ((8 : Q).mul ((60 : Q).mul 60))) ∧
      s'.clock.shouldAnimate = true ∧
      s'.clock.clockRange = .UNBOUNDED ∧
      lookupKey (rcP.droneId ++ "_trail") s'.droneTrails = none ∧
      lookupKey rcP.droneId s'.graphicMap = none ∧
      Listener.replayTick rcP.sessionId ∉ s'.tickListeners ∧
      (∀ w2, destroyReplay w2 s' rc' = (s', rc', .warnedBeforePlay)) ∧
      pauseReplay s' rc' = (s', rc', .warnedBeforePlay) ∧
      continueReplay s' rc' = (s', rc', .warnedBeforePlay) ∧
      stopReplay s' rc' = (s', rc', .warnedBeforePlay) ∧
      (∀ t, seekReplay t s' rc' = (s', rc', .warnedBeforePlay))) :=
  ⟨by decide,
   C5_destroy_after_play stateP rcP 1700000000 (by decide) (by decide)
    (by decide)⟩

/-- C7: `stop()` followed by `play()` reproduces the load-time initial
position.  `stop` halts the clock, rewinds its current time to the clock's
start time — the session start, under the observed pattern in which the
caller configures the clock window to the session before playing — and snaps
the entity to the first waypoint; the subsequent `play()` resumes (clock
running, controller playing) from that very state: the entity's position at
the current time is again the first waypoint, which is exactly what the
loaded curve yields at the session start time. -/
theorem C7_stop_play_roundtrip (s : MapState) (rc : ReplayController)
    (g : Graphic) (sp : SampledPositionProperty) (t0 : JSNum) (pp0 : Cart3)
    (hp : rc.hasPlayed = true)
    (hg : lookupKey rc.droneId s.graphicMap = some g)
    (hE : g.hasEntity = true)
    (hhead : rc.cartesianPositions.head? = some (t0, pp0))
    (_hsp : g.positionProperty = some sp)
    (hcurve : sp.samples.head? = some (t0, pp0))
    (hstart : s.clock.startTime = t0)
    (hwf : t0.leb t0 = true) :
    ∀ s1 rc1 r1, stopReplay s rc = (s1, rc1, r1) →
      r1 = .applied ∧
      s1.clock.shouldAnimate = false ∧
      s1.clock.currentTime = t0 ∧
      lookupKey rc.droneId s1.graphicMap =
        some { g with entityPos := .const pp0 } ∧
      sp.getValue t0 = some pp0 ∧
      ∀ s2 rc2 r2, playReplay s1 rc1 = (s2, rc2, r2) →
        r2 = .applied ∧
        s2.clock.currentTime = t0 ∧
        s2.clock.shouldAnimate = true ∧
        rc2.isPlaying = true ∧
        ∀ g2, lookupKey rc.droneId s2.graphicMap = some g2 →
          evalEntityPos g2 s2.clock.currentTime = some pp0 := by
  have hgv : sp.getValue t0 = some pp0 := by
    cases hsmp : sp.samples with
    | nil => rw [hsmp] at hcurve; simp at hcurve
    | cons hd rest =>
      rw [hsmp] at hcurve
      simp only [List.head?_cons, Option.some.injEq] at hcurve
      subst hcurve
      exact SampledPositionProperty.getValue_of_leb_first hsmp hwf
  intro s1 rc1 r1 heq1
  rw [stopReplay] at heq1
  simp only [hp, Bool.not_true, Bool.false_eq_true, if_false, hg, hE, if_true,
    hhead] at heq1
  injection heq1 with h1 h23
  injection h23 with h2 h3
  subst h1
  subst h2
  subst h3
  refine ⟨rfl, rfl, hstart, ?_, hgv, ?_⟩
  · simp [lookupKey_setKey_self, hE]
  · intro s2 rc2 r2 heq2
    rw [playReplay] at heq2
    simp only [Bool.not_false, if_true] at heq2
    injection heq2 with h1 h23
    injection h23 with h2 h3
    subst h1
    subst h2
    subst h3
    refine ⟨rfl, hstart, rfl, rfl, ?_⟩
    intro g2 hg2
    simp only [lookupKey_setKey_self, Option.some.injEq] at hg2
    subst hg2
    simp [evalEntityPos]

/-- C2: for every `moveDronePoint` command on an existing entity that takes
the flight path, the computed flight duration is exactly
`distance(currentPosition, targetPosition) / speed`, and the freshly
installed curve starts at the clock's current time from the entity's
position interpolated at that time (`evalEntityPos` at `currentTime`) — not
from the previous flight's start point or its last commanded target — and
ends `duration` seconds later at the new target; the clock window is set to
exactly that flight window. -/
theorem C2_duration_and_midflight_start (o : MoveDroneOptions) (s : MapState)
    (g : Graphic) (pp : SampledPositionProperty) (cur : Cart3)
    (hm : s.mapPresent = true)
    (hg : lookupKey o.pointId s.graphicMap = some g)
    (hE : g.hasEntity = true)
    (hcur : evalEntityPos g s.clock.currentTime = some cur)
    (hpp : g.positionProperty = some pp)
    (hd : (cartDistance cur (fromDegrees o.lng o.lat (JSNum.orDefault o.height 0))).ltb
        (JSNum.num (Q.norm 1 10)) = false)
    (hlt : s.clock.currentTime.ltb (addSeconds s.clock.currentTime
        ((cartDistance cur (fromDegrees o.lng o.lat (JSNum.orDefault o.height 0))).div
          (JSNum.orDefault o.speed 10))) = true) :
    (moveDronePoint o s).2 = .flying
      ((cartDistance cur (fromDegrees o.lng o.lat (JSNum.orDefault o.height 0))).div
        (JSNum.orDefault o.speed 10)) ∧
    lookupKey o.pointId ((moveDronePoint o s).1).graphicMap = some { g with
      positionProperty := some ⟨[(s.clock.currentTime, cur),
        (addSeconds s.clock.currentTime
          ((cartDistance cur (fromDegrees o.lng o.lat (JSNum.orDefault o.height 0))).div
            (JSNum.orDefault o.speed 10)),
         fromDegrees o.lng o.lat (JSNum.orDefault o.height 0))]⟩
      entityPos := .sampled
      isFlying := true
      currentPosition := some cur
      flightEndListener := some s.nextId } ∧
    ((moveDronePoint o s).1).clock.startTime = s.clock.currentTime ∧
    ((moveDronePoint o s).1).clock.stopTime = addSeconds s.clock.currentTime
      ((cartDistance cur (fromDegrees o.lng o.lat (JSNum.orDefault o.height 0))).div
        (JSNum.orDefault o.speed 10)) ∧
    ((moveDronePoint o s).1).clock.shouldAnimate = true := by
  have hf := moveDroneTrail_frame o.pointId cur s
  rw [moveDronePoint]
  simp only [hm, Bool.not_true, Bool.false_eq_true, if_false, hg, hE, if_true,
    hcur, hpp, hd, hf.2.1, hf.2.2.2.2.1, hf.2.2.2.2.2, Option.getD_some,
    addSample_flight_pair _ _ _ _ hlt, lookupKey_setKey_self, Option.map_some']
  simp [hE]

/-- Witness for C2: the spec scenario.  The first command (1000 m climb at
100 m/s) yields a 10 s flight; with the clock advanced 5 s mid-flight, the
preempting command starts its new curve from the position interpolated at
the 5 s mark (height 500 m) — which differs from both the original start
point and the previous target — with duration 1500 m / (100 m/s) = 15 s. -/
theorem C2_duration_and_midflight_start_witness :
    (stateA.mapPresent = true ∧
     evalEntityPos droneA stateA.clock.currentTime = some pA) ∧
    (moveDronePoint moveCmd1 stateA).2 = .flying (.num 10) ∧
    (evalEntityPos gB stateBMid.clock.currentTime = some (pZ 500) ∧
     (moveDronePoint moveCmd2 stateBMid).2 = .flying (.num 15) ∧
     lookupKey "d1" ((moveDronePoint moveCmd2 stateBMid).1).graphicMap =
       some { gB with
         positionProperty := some ⟨[(.num 5, pZ 500), (.num 20, pZ 2000)]⟩
         isFlying := true
         currentPosition := some (pZ 500)
         flightEndListener := some 1 } ∧
     pZ 500 ≠ pA ∧ pZ 500 ≠ pZ 1000) := by
  have h1 := C2_duration_and_midflight_start moveCmd1 stateA droneA
    ⟨[(.num 0, pA)]⟩ pA (by decide) (by decide) (by decide) (by decide)
    (by decide) (by decide) (by decide)
  have h2 := C2_duration_and_midflight_start moveCmd2 stateBMid gB
    ⟨[(.num 0, pA), (.num 10, pZ 1000)]⟩ (pZ 500) (by decide) (by decide)
    (by decide) (by decide) (by decide) (by decide) (by decide)
  exact ⟨⟨by decide, by decide⟩, h1.1.trans (by decide),
    by decide, h2.1.trans (by decide), h2.2.1.trans (by decide),
    by decide, by decide⟩

/-- Witness for C7 on the fixture session after `play()`: `stop()` rewinds
the clock to the session start (100 s) and pins the entity at the first
waypoint (height 100 m); the following `play()` runs the clock from 100 s
with the entity still at that initial position — the same position the
loaded curve yields at the session start. -/
theorem C7_stop_play_roundtrip_witness :
    (rcP.hasPlayed = true ∧ lookupKey rcP.droneId stateP.graphicMap = some gR ∧
     stateP.clock.startTime = .num 100) ∧
    ((stopReplay stateP rcP).1.clock.shouldAnimate = false ∧
     (stopReplay stateP rcP).1.clock.currentTime = .num 100 ∧
     lookupKey rcP.droneId ((stopReplay stateP rcP).1).graphicMap =
       some { gR with entityPos := .const (pZ 100) } ∧
     spR.getValue (.num 100) = some (pZ 100) ∧
     (playReplay (stopReplay stateP rcP).1
         (stopReplay stateP rcP).2.1).1.clock.currentTime = .num 100 ∧
     (playReplay (stopReplay stateP rcP).1
         (stopReplay stateP rcP).2.1).1.clock.shouldAnimate = true ∧
     ∀ g2, lookupKey rcP.droneId
         ((playReplay (stopReplay stateP rcP).1
            (stopReplay stateP rcP).2.1).1).graphicMap = some g2 →
       evalEntityPos g2 (playReplay (stopReplay stateP rcP).1
            (stopReplay stateP rcP).2.1).1.clock.currentTime = some (pZ 100)) := by
  have h := C7_stop_play_roundtrip stateP rcP gR spR (.num 100) (pZ 100)
    (by decide) (by decide) (by decide) (by decide) (by decide) (by decide)
    (by decide) (by decide)
  obtain ⟨_, ha, hb, hc, hd, hrest⟩ := h _ _ _ rfl
  obtain ⟨_, he, hf, _, hh⟩ := hrest _ _ _ rfl
  exact ⟨⟨by decide, by decide, by decide⟩, ha, hb, hc, hd, he, hf, by
    intro g2 hg2
    have := hh g2 hg2
    exact this⟩

/-- C3 counterexample: `moveDronePoint` performs no NaN validation.  On the
parked-drone scene, a command with NaN longitude is not rejected: the flight
state flips to flying, tick listeners are installed, the curve receives a
NaN-time sample at a NaN target, and the clock window is corrupted — the
state is mutated, contradicting "rejected with no state mutation". -/
theorem C3_nan_counterexample :
    moveCmdNaN.lng.isNaN = true ∧
    droneA.isFlying = false ∧
    (lookupKey "d1" ((moveDronePoint moveCmdNaN stateA).1).graphicMap).map
      Graphic.isFlying = some true ∧
    ((moveDronePoint moveCmdNaN stateA).1).tickListeners =
      [.trailUpdate "d1" 0, .flightEnd "d1" 0] ∧
    ((moveDronePoint moveCmdNaN stateA).1).clock.stopTime = .nan ∧
    (lookupKey "d1" ((moveDronePoint moveCmdNaN stateA).1).graphicMap).map
      Graphic.positionProperty =
      some (some ⟨[(.num 0, pA), (.nan, ⟨.nan, .num 0, .num 1000⟩)]⟩) ∧
    (moveDronePoint moveCmdNaN stateA).1 ≠ stateA := by
  decide

/-- C3 (amended): the NaN-coordinate rejection contract holds for
`movePoint`, and only for NaN longitude or latitude: such a command returns
`false` with the state completely unchanged.  (A NaN height is coerced to 0
by `options.height || 0` before validation; `moveDronePoint` performs no
NaN validation at all, see the counterexample.) -/
theorem C3_movePoint_nan_rejected (o : MovePointOptions) (s : MapState)
    (point : Graphic)
    (hg : lookupKey o.pointId s.graphicMap = some point)
    (hnan : o.lng.isNaN = true ∨ o.lat.isNaN = true) :
    movePoint o s = (s, false) := by
  rcases hnan with h | h
  · cases hl : o.lng with
    | nan => simp [movePoint, hg, hl, fromDegrees, JSNum.mul, JSNum.isNaN]
    | num q => rw [hl] at h; simp [JSNum.isNaN] at h
  · cases hl : o.lat with
    | nan =>
      cases hlng : o.lng with
      | nan => simp [movePoint, hg, hl, hlng, fromDegrees, JSNum.mul, JSNum.isNaN]
      | num q => simp [movePoint, hg, hl, hlng, fromDegrees, JSNum.mul, JSNum.isNaN]
    | num q => rw [hl] at h; simp [JSNum.isNaN] at h

/-- Witness for the amended C3: a `movePoint` command with NaN latitude on
the parked-drone scene is rejected and mutates nothing. -/
theorem C3_movePoint_nan_rejected_witness :
    (lookupKey "d1" stateA.graphicMap = some droneA ∧
     movePointCmdNaN.lat.isNaN = true) ∧
    movePoint movePointCmdNaN stateA = (stateA, false) :=
  ⟨⟨by decide, by decide⟩,
   C3_movePoint_nan_rejected movePointCmdNaN stateA droneA (by decide)
     (Or.inr (by decide))⟩

/-- C1 counterexample: the second `moveDronePoint` call does NOT unsubscribe
the previous flight's tick listeners.  After the first flight command the
clock carries that flight's trail-update and flight-completion listeners;
issuing a second command mid-flight removes only the stored completion
listener — the first flight's trail-update listener is still subscribed
afterwards (and nothing will ever remove it, since the closure that would
have done so was itself unsubscribed). -/
theorem C1_preemption_counterexample :
    stateBMid.tickListeners = [.trailUpdate "d1" 0, .flightEnd "d1" 0] ∧
    (lookupKey "d1" stateBMid.graphicMap).map Graphic.isFlying = some true ∧
    Listener.trailUpdate "d1" 0 ∈
      ((moveDronePoint moveCmd2 stateBMid).1).tickListeners ∧
    ((moveDronePoint moveCmd2 stateBMid).1).tickListeners =
      [.trailUpdate "d1" 0, .trailUpdate "d1" 1, .flightEnd "d1" 1] := by
  decide

/-- C1 (amended): a `moveDronePoint` issued while the entity's stored
flight-completion listener is still subscribed (the previous flight active)
deterministically unsubscribes that completion listener before installing
its own pair, and afterwards exactly one flight-completion listener for the
entity remains on the clock's tick event — the new flight's; the previous
flight's trail-update listener, however, is not unsubscribed and remains
subscribed. -/
theorem C1_preemption_completion_listener (o : MoveDroneOptions)
    (s : MapState) (g : Graphic) (cur : Cart3) (fid : ℕ)
    (hm : s.mapPresent = true)
    (hg : lookupKey o.pointId s.graphicMap = some g)
    (hE : g.hasEntity = true)
    (hcur : evalEntityPos g s.clock.currentTime = some cur)
    (hfl : g.flightEndListener = some fid)
    (hone : s.tickListeners.filter (isFlightEndFor o.pointId) =
      [Listener.flightEnd o.pointId fid])
    (hne : fid ≠ s.nextId)
    (hd : (cartDistance cur (fromDegrees o.lng o.lat (JSNum.orDefault o.height 0))).ltb
        (JSNum.num (Q.norm 1 10)) = false) :
    ((moveDronePoint o s).1).tickListeners.filter (isFlightEndFor o.pointId) =
      [Listener.flightEnd o.pointId s.nextId] ∧
    Listener.flightEnd o.pointId fid ∉ ((moveDronePoint o s).1).tickListeners ∧
    (∀ f', Listener.trailUpdate o.pointId f' ∈ s.tickListeners →
      Listener.trailUpdate o.pointId f' ∈ ((moveDronePoint o s).1).tickListeners) := by
  have hf := moveDroneTrail_frame o.pointId cur s
  have htick : ((moveDronePoint o s).1).tickListeners =
      (s.tickListeners.erase (Listener.flightEnd o.pointId fid)) ++
        [Listener.trailUpdate o.pointId s.nextId,
         Listener.flightEnd o.pointId s.nextId] := by
    rw [moveDronePoint]
    simp only [hm, Bool.not_true, Bool.false_eq_true, if_false, hg, hE, if_true,
      hcur, hfl, hd, hf.2.2.2.2.1, hf.2.2.2.2.2, Option.getD_some]
  have hzero := filter_erase_of_filter_singleton hone
  refine ⟨?_, ?_, ?_⟩
  · rw [htick, List.filter_append, hzero]
    simp [isFlightEndFor]
  · rw [htick]
    intro hmem
    rcases List.mem_append.mp hmem with hin | hin
    · have hmf : Listener.flightEnd o.pointId fid ∈
          (s.tickListeners.erase (Listener.flightEnd o.pointId fid)).filter
            (isFlightEndFor o.pointId) :=
        List.mem_filter.mpr ⟨hin, by simp [isFlightEndFor]⟩
      rw [hzero] at hmf
      simp at hmf
    · simp at hin
      exact hne (by simpa using hin)
  · intro f' hmem
    rw [htick]
    refine List.mem_append.mpr (Or.inl ?_)
    exact (List.mem_erase_of_ne (by simp)).mpr hmem

/-- Witness for the amended C1 on the mid-flight fixture: the second command
removes old completion listener 0, installs pair 1, leaves exactly the new
completion listener for `"d1"` — and the first flight's trail-update
listener 0 is still subscribed. -/
theorem C1_preemption_completion_listener_witness :
    (stateBMid.mapPresent = true ∧ gB.flightEndListener = some 0 ∧
     stateBMid.tickListeners.filter (isFlightEndFor "d1") =
       [Listener.flightEnd "d1" 0] ∧ (0 : ℕ) ≠ stateBMid.nextId) ∧
    (((moveDronePoint moveCmd2 stateBMid).1).tickListeners.filter
        (isFlightEndFor "d1") = [Listener.flightEnd "d1" stateBMid.nextId] ∧
     Listener.flightEnd "d1" 0 ∉
       ((moveDronePoint moveCmd2 stateBMid).1).tickListeners ∧
     (∀ f', Listener.trailUpdate "d1" f' ∈ stateBMid.tickListeners →
       Listener.trailUpdate "d1" f' ∈
         ((moveDronePoint moveCmd2 stateBMid).1).tickListeners)) :=
  ⟨⟨by decide, by decide, by decide, by decide⟩,
   C1_preemption_completion_listener moveCmd2 stateBMid gB (pZ 500) 0
     (by decide) (by decide) (by decide) (by decide) (by decide) (by decide)
     (by decide) (by decide)⟩

/-- C6 counterexample: the minimum-gap invariant does not survive every
operation, and the point count is not non-decreasing outside
`clear`/`destroy`.  Loading a replay session whose consecutive waypoints
are the same spot (a hovering drone) produces a trail with two consecutive
points 0 m apart — closer than the 1 m threshold; and a `moveDroneTrail`
append under a finite retention window shrinks the trail from 2 points to
1 with no clear or destroy involved. -/
theorem C6_trail_gap_counterexample :
    ((lookupKey "r2_trail" stateDup.droneTrails).map
      (fun td => td.positions.map TrailPoint.position) = some [pDup, pDup]) ∧
    (cartDistance pDup pDup).gtb (JSNum.num 1) = false ∧
    (cartDistance pDup pDup).ltb (JSNum.num 1) = true ∧
    ((lookupKey "d1_trail"
        ((moveDroneTrail "d1" (pZ 20) stateTrim).1).droneTrails).map
      (fun td => td.positions.length) = some 1) ∧
    (lookupKey "d1_trail" stateTrim.droneTrails).map
      (fun td => td.positions.length) = some 2 := by
  decide

/-- C6 (amended): the Trail Store's own recording respects the contract —
`moveDroneTrail` appends a point to a non-empty trail only if its distance
from the last recorded point exceeds the 1 m threshold (otherwise the call
leaves the state untouched), and the consecutive-gap invariant is preserved
by `moveDroneTrail` on trails with well-formed, non-decreasing timestamps
(pruning then removes only a prefix of older points); under the unbounded
retention sentinel the point count never decreases.  The invariant and the
count monotonicity do not extend to `replayDronePath`, which reloads the
trail with all waypoints unfiltered, nor to appends under a finite
retention window (see the counterexample). -/
theorem C6_trail_gap_and_count (s : MapState) (droneId : String) (td : TrailData) (p : Cart3)
    (hm : s.mapPresent = true)
    (ht : lookupKey (droneId ++ "_trail") s.droneTrails = some td) :
    (∀ lp, td.positions.getLast? = some lp →
      (cartDistance lp.position p).gtb (JSNum.num 1) = false →
      moveDroneTrail droneId p s = (s, some td)) ∧
    ((∀ q ∈ td.positions ++ [(⟨p, s.clock.currentTime⟩ : TrailPoint)],
        timestampWF q.timestamp) →
     (td.positions ++ [(⟨p, s.clock.currentTime⟩ : TrailPoint)]).Pairwise
        (fun a b => a.timestamp.leb b.timestamp = true) →
     td.positions.Chain' minGapExceeded →
     ∀ td', lookupKey (droneId ++ "_trail")
         ((moveDroneTrail droneId p s).1).droneTrails = some td' →
       td'.positions.Chain' minGapExceeded) ∧
    (s.trailTime = -1 →
     ∀ td', lookupKey (droneId ++ "_trail")
         ((moveDroneTrail droneId p s).1).droneTrails = some td' →
       td.positions.length ≤ td'.positions.length) := by
  refine ⟨?_, ?_, ?_⟩
  · intro lp hl hdist
    simp [moveDroneTrail, hm, ht, hl, hdist]
  · intro hwf hsort hchain td' htd'
    cases hl : td.positions.getLast? with
    | none =>
      have hnil : td.positions = [] := by
        cases hpos : td.positions with
        | nil => rfl
        | cons a l => rw [hpos] at hl; simp [List.getLast?] at hl
      simp only [moveDroneTrail, hm, Bool.not_true, Bool.false_eq_true,
        if_false, ht, hl, lookupKey_setKey_self, Option.some.injEq] at htd'
      subst htd'
      simp [List.chain'_singleton]
    | some lp =>
      by_cases hdist : (cartDistance lp.position p).gtb (JSNum.num 1) = true
      · have happ : (td.positions ++
            [(⟨p, s.clock.currentTime⟩ : TrailPoint)]).Chain' minGapExceeded := by
          rw [List.chain'_append]
          refine ⟨hchain, List.chain'_singleton _, ?_⟩
          intro x hx y hy
          simp only [List.head?_cons, Option.mem_def, Option.some.injEq] at hy
          rw [hl] at hx
          simp only [Option.mem_def, Option.some.injEq] at hx
          subst hx
          subst hy
          exact hdist
        by_cases hw : s.trailTime = -1
        · simp only [moveDroneTrail, hm, Bool.not_true, Bool.false_eq_true,
            if_false, ht, hl, hdist, if_true, hw, ne_eq, not_true_eq_false,
            lookupKey_setKey_self, Option.some.injEq] at htd'
          subst htd'
          exact happ
        · simp only [moveDroneTrail, hm, Bool.not_true, Bool.false_eq_true,
            if_false, ht, hl, hdist, if_true, hw, ne_eq, not_false_iff,
            lookupKey_setKey_self, Option.some.injEq] at htd'
          subst htd'
          obtain ⟨l1, l2, heq, hfil⟩ := filter_geb_suffix
            (addSeconds s.clock.currentTime (JSNum.num (-s.trailTime)))
            (td.positions ++ [(⟨p, s.clock.currentTime⟩ : TrailPoint)])
            hwf hsort
          simp only [hfil]
          rw [heq] at happ
          exact happ.right_of_append
      · have heq := by
          exact (show moveDroneTrail droneId p s = (s, some td) by
            simp [moveDroneTrail, hm, ht, hl, hdist])
        rw [heq] at htd'
        simp only at htd'
        rw [ht] at htd'
        injection htd' with htd'
        subst htd'
        exact hchain
  · intro hw td' htd'
    cases hl : td.positions.getLast? with
    | none =>
      simp only [moveDroneTrail, hm, Bool.not_true, Bool.false_eq_true,
        if_false, ht, hl, lookupKey_setKey_self, Option.some.injEq] at htd'
      subst htd'
      have : td.positions = [] := by
        cases hpos : td.positions with
        | nil => rfl
        | cons a l => rw [hpos] at hl; simp [List.getLast?] at hl
      simp [this]
    | some lp =>
      by_cases hdist : (cartDistance lp.position p).gtb (JSNum.num 1) = true
      · simp only [moveDroneTrail, hm, Bool.not_true, Bool.false_eq_true,
          if_false, ht, hl, hdist, if_true, hw, ne_eq, not_true_eq_false,
          lookupKey_setKey_self, Option.some.injEq] at htd'
        subst htd'
        simp
      · have heq : moveDroneTrail droneId p s = (s, some td) := by
          simp [moveDroneTrail, hm, ht, hl, hdist]
        rw [heq] at htd'
        simp only at htd'
        rw [ht] at htd'
        injection htd' with htd'
        subst htd'
        exact le_refl _

/-- Witness for the amended C6: appending a point 10 m above the last one
to the two-point trail with unbounded retention keeps the gap invariant and
grows the count. -/
theorem C6_trail_gap_and_count_witness :
    (stateGap.mapPresent = true ∧
     lookupKey "d1_trail" stateGap.droneTrails = some trailTrim) ∧
    (∀ td', lookupKey ("d1" ++ "_trail")
        ((moveDroneTrail "d1" (pZ 20) stateGap).1).droneTrails = some td' →
      td'.positions.Chain' minGapExceeded) ∧
    (∀ td', lookupKey ("d1" ++ "_trail")
        ((moveDroneTrail "d1" (pZ 20) stateGap).1).droneTrails = some td' →
      trailTrim.positions.length ≤ td'.positions.length) := by
  have h := C6_trail_gap_and_count stateGap "d1" trailTrim (pZ 20)
    (by decide) (by decide)
  exact ⟨⟨by decide, by decide⟩,
    h.2.1 (by decide) (by decide)
      (List.chain'_cons.mpr ⟨by decide, List.chain'_singleton _⟩),
    h.2.2 (by decide)⟩

end CesiumMap
